import Mathlib

/-!
Verification of the numerical examples of the `Python-Engineering` notebooks
(`04-B-OptimizationLinear/LinearOptimization.ipynb` and
`03-SistemasLineales-Matrices/03-SistemasLineales.ipynb`).

The notebooks delegate every computation to numerical libraries; here the
models the notebooks build (linear programs, matrices, right-hand sides) are
embedded exactly over `ℚ`, and the reported results are checked against the
exact mathematics of those models.
-/

namespace PyEng

/-! ## The resource-allocation linear program

From `LinearOptimization.ipynb`: maximize `20 x1 + 12 x2 + 40 x3 + 25 x4`
subject to `x1+x2+x3+x4 ≤ 50`, `3 x1+2 x2+x3 ≤ 100`, `x2+2 x3+3 x4 ≤ 90`,
all variables nonnegative (pulp model `resource-allocation`, and the scipy
`linprog` call with the same data). -/

/-- Objective of the pulp model: `obj_func = 20*x1 + 12*x2 + 40*x3 + 25*x4`. -/
def lpObj (x1 x2 x3 x4 : ℚ) : ℚ := 20 * x1 + 12 * x2 + 40 * x3 + 25 * x4

/-- Feasible region of the resource-allocation LP: the three `<=` constraints
`Capacity`, `Raw A`, `Raw B` of the pulp model (equivalently `lhs_ineq`,
`rhs_ineq` of the scipy call), plus the nonnegativity bounds `lowBound=0`
(`bnd` in the scipy call). -/
def lpFeasible (x1 x2 x3 x4 : ℚ) : Prop :=
  0 ≤ x1 ∧ 0 ≤ x2 ∧ 0 ≤ x3 ∧ 0 ≤ x4 ∧
  x1 + x2 + x3 + x4 ≤ 50 ∧
  3 * x1 + 2 * x2 + x3 ≤ 100 ∧
  x2 + 2 * x3 + 3 * x4 ≤ 90

instance (x1 x2 x3 x4 : ℚ) : Decidable (lpFeasible x1 x2 x3 x4) := by
  unfold lpFeasible; infer_instance

/-- The scipy encoding of the objective: `obj = [-20, -12, -40, -25]`
(scipy `linprog` minimizes, so the notebook negates the profit vector). -/
def scipyObj (x1 x2 x3 x4 : ℚ) : ℚ :=
  (-20) * x1 + (-12) * x2 + (-40) * x3 + (-25) * x4

/-- Objective value reported by the scipy call in the stored output:
`fun: -1900.0`. -/
def scipyReportedObjective : ℚ := -1900

/-- Optimal objective reported by the pulp LP solve: `objective: 1900.0`. -/
def pulpLPObjective : ℚ := 1900

/-- Optimal objective reported by the pulp MILP solve: `objective: 1800.0`. -/
def pulpMILPObjective : ℚ := 1800

/-- Feasible region of the binary-extended model
`resource_allocation_non_parallel_production`: the LP constraints plus the
binary variables `y1, y3` (`cat="Binary"`, i.e. values 0 or 1) and the
constraints `y1 + y3 <= 1`, `x3 <= y3*50`, `x1 <= y1*50`. -/
def milpFeasible (x1 x2 x3 x4 y1 y3 : ℚ) : Prop :=
  lpFeasible x1 x2 x3 x4 ∧
  (y1 = 0 ∨ y1 = 1) ∧ (y3 = 0 ∨ y3 = 1) ∧
  y1 + y3 ≤ 1 ∧ x3 ≤ y3 * 50 ∧ x1 ≤ y1 * 50

instance (x1 x2 x3 x4 y1 y3 : ℚ) : Decidable (milpFeasible x1 x2 x3 x4 y1 y3) := by
  unfold milpFeasible; infer_instance

/-- C1: for the resource-allocation LP, the assignment `x = [5, 0, 45, 0]`
is feasible, attains objective value 1900, and no feasible assignment does
better: 1900 is the optimal value the solvers report. -/
theorem lp_optimum_1900 :
    lpFeasible 5 0 45 0 ∧ lpObj 5 0 45 0 = 1900 ∧
    ∀ x1 x2 x3 x4 : ℚ, lpFeasible x1 x2 x3 x4 → lpObj x1 x2 x3 x4 ≤ 1900 := by
  refine ⟨by norm_num [lpFeasible], by norm_num [lpObj], ?_⟩
  rintro x1 x2 x3 x4 ⟨h1, h2, h3, h4, hc1, hc2, hc3⟩
  unfold lpObj
  linarith

/-- Witness for `lp_optimum_1900`: the bound applied at the origin. -/
theorem lp_optimum_1900_witness : lpObj 0 0 0 0 ≤ 1900 :=
  lp_optimum_1900.2.2 0 0 0 0 (by norm_num [lpFeasible])

/-- Dual bound for the continuous LP (multipliers 20 and 10 on `Capacity`
and `Raw B`): no feasible point beats 1900. -/
lemma lpObj_le_1900 (x1 x2 x3 x4 : ℚ) (h : lpFeasible x1 x2 x3 x4) :
    lpObj x1 x2 x3 x4 ≤ 1900 := by
  obtain ⟨h1, h2, h3, h4, hc1, hc2, hc3⟩ := h
  unfold lpObj
  linarith

/-- Dual bound for the binary-extended model, by cases on the binaries:
no integer-feasible point beats 1800. -/
lemma milpObj_le_1800 (x1 x2 x3 x4 y1 y3 : ℚ)
    (h : milpFeasible x1 x2 x3 x4 y1 y3) : lpObj x1 x2 x3 x4 ≤ 1800 := by
  obtain ⟨⟨h1, h2, h3, h4, hc1, hc2, hc3⟩, hy1, hy3, hyc, hx3, hx1⟩ := h
  unfold lpObj
  rcases hy1 with rfl | rfl <;> rcases hy3 with rfl | rfl <;> linarith

/-- C2: for the binary-extended model
`resource_allocation_non_parallel_production`, the assignment
`x = [0, 0, 45, 0]`, `y1 = 0`, `y3 = 1` is feasible, attains objective 1800,
and no feasible assignment does better: the solver's reported optimum. -/
theorem milp_optimum_1800 :
    milpFeasible 0 0 45 0 0 1 ∧ lpObj 0 0 45 0 = 1800 ∧
    ∀ x1 x2 x3 x4 y1 y3 : ℚ, milpFeasible x1 x2 x3 x4 y1 y3 →
      lpObj x1 x2 x3 x4 ≤ 1800 := by
  refine ⟨by norm_num [milpFeasible, lpFeasible], by norm_num [lpObj],
    fun x1 x2 x3 x4 y1 y3 h => milpObj_le_1800 x1 x2 x3 x4 y1 y3 h⟩

/-- Witness for `milp_optimum_1800`: the bound applied at the all-zero point. -/
theorem milp_optimum_1800_witness : lpObj 0 0 0 0 ≤ 1800 :=
  milp_optimum_1800.2.2 0 0 0 0 0 0
    (by norm_num [milpFeasible, lpFeasible])

/-- C8: every point feasible for the binary-extended model is feasible for
its continuous relaxation, hence its objective is bounded by the
relaxation's optimum 1900; in particular the reported MILP optimum 1800
does not exceed the reported LP optimum 1900. -/
theorem milp_below_relaxation :
    (∀ x1 x2 x3 x4 y1 y3 : ℚ, milpFeasible x1 x2 x3 x4 y1 y3 →
      lpFeasible x1 x2 x3 x4 ∧ lpObj x1 x2 x3 x4 ≤ pulpLPObjective) ∧
    pulpMILPObjective ≤ pulpLPObjective := by
  refine ⟨fun x1 x2 x3 x4 y1 y3 h =>
    ⟨h.1, ?_⟩, by norm_num [pulpMILPObjective, pulpLPObjective]⟩
  simpa [pulpLPObjective] using lpObj_le_1900 x1 x2 x3 x4 h.1

/-- Witness for `milp_below_relaxation`: applied at the MILP optimum. -/
theorem milp_below_relaxation_witness :
    lpFeasible 0 0 45 0 ∧ lpObj 0 0 45 0 ≤ pulpLPObjective :=
  milp_below_relaxation.1 0 0 45 0 0 1
    (by norm_num [milpFeasible, lpFeasible])

/-- C9: the scipy path minimizes the negated profit vector
`obj = [-20, -12, -40, -25]`, so its objective is pointwise the negation of
the pulp objective; its reported minimum `fun = -1900` is attained at
`x = [5, 0, 45, 0]` and is a true lower bound over the feasible region, and
negating it gives exactly the pulp-reported maximum 1900, attained at the
same assignment. -/
theorem scipy_pulp_equivalence :
    (∀ x1 x2 x3 x4 : ℚ, scipyObj x1 x2 x3 x4 = -(lpObj x1 x2 x3 x4)) ∧
    (∀ x1 x2 x3 x4 : ℚ, lpFeasible x1 x2 x3 x4 →
      scipyReportedObjective ≤ scipyObj x1 x2 x3 x4) ∧
    scipyObj 5 0 45 0 = scipyReportedObjective ∧
    -scipyReportedObjective = pulpLPObjective ∧
    lpFeasible 5 0 45 0 ∧ lpObj 5 0 45 0 = pulpLPObjective := by
  refine ⟨fun x1 x2 x3 x4 => by unfold scipyObj lpObj; ring,
    fun x1 x2 x3 x4 h => ?_,
    by norm_num [scipyObj, scipyReportedObjective],
    by norm_num [scipyReportedObjective, pulpLPObjective],
    by norm_num [lpFeasible],
    by norm_num [lpObj, pulpLPObjective]⟩
  have hb := lpObj_le_1900 x1 x2 x3 x4 h
  unfold scipyObj
  unfold lpObj at hb
  unfold scipyReportedObjective
  linarith

/-- Witness for `scipy_pulp_equivalence`: the lower bound applied at the
origin. -/
theorem scipy_pulp_equivalence_witness :
    scipyReportedObjective ≤ scipyObj 0 0 0 0 :=
  scipy_pulp_equivalence.2.1 0 0 0 0 (by norm_num [lpFeasible])

/-! ## The pulp models and their reported constraint values

pulp reports `constraint.value()` as the left-hand side evaluated at the
returned solution minus the right-hand side. Each solved model of the
notebook is embedded as its constraint rows, the solution values the solver
printed, and the constraint values it printed. -/

/-- A pulp constraint is `coeffs · vars (≤ or =) rhs`. -/
inductive ConstraintKind
  | le
  | eq
deriving DecidableEq

/-- One linear constraint of a pulp model. -/
structure PulpConstraint where
  coeffs : List ℚ
  rhs : ℚ
  kind : ConstraintKind

/-- Dot product of coefficient and value lists. -/
def dot : List ℚ → List ℚ → ℚ
  | a :: as, b :: bs => a * b + dot as bs
  | _, _ => 0

/-- `constraint.value()` as pulp computes it: left-hand side at the
solution, minus the right-hand side. -/
def constraintValue (c : PulpConstraint) (sol : List ℚ) : ℚ :=
  dot c.coeffs sol - c.rhs

/-- A solved pulp model: its constraints, the solution values the solver
printed, and the `constraint.value()` numbers it printed (in order). -/
structure PulpModel where
  constraints : List PulpConstraint
  sol : List ℚ
  reported : List ℚ

/-- The `resource-allocation` LP model: constraints `Capacity`, `Raw A`,
`Raw B` over `(x1, x2, x3, x4)`; printed solution `[5, 0, 45, 0]`, printed
constraint values `[0, -40, 0]`. -/
def resourceModel : PulpModel where
  constraints :=
    [⟨[1, 1, 1, 1], 50, .le⟩, ⟨[3, 2, 1, 0], 100, .le⟩,
     ⟨[0, 1, 2, 3], 90, .le⟩]
  sol := [5, 0, 45, 0]
  reported := [0, -40, 0]

/-- The `resource_allocation_non_parallel_production` MILP model over
`(x1, x2, x3, x4, y1, y3)`: the three LP constraints plus `y_constraint`
(`y1 + y3 ≤ 1`), `x3_constraint` (`x3 - 50 y3 ≤ 0`), `x1_constraint`
(`x1 - 50 y1 ≤ 0`); printed solution `[0, 0, 45, 0, 0, 1]`, printed
constraint values `[-5, -55, 0, 0, -5, 0]`. -/
def nonParallelModel : PulpModel where
  constraints :=
    [⟨[1, 1, 1, 1, 0, 0], 50, .le⟩, ⟨[3, 2, 1, 0, 0, 0], 100, .le⟩,
     ⟨[0, 1, 2, 3, 0, 0], 90, .le⟩, ⟨[0, 0, 0, 0, 1, 1], 1, .le⟩,
     ⟨[0, 0, 1, 0, 0, -50], 0, .le⟩, ⟨[1, 0, 0, 0, -50, 0], 0, .le⟩]
  sol := [0, 0, 45, 0, 0, 1]
  reported := [-5, -55, 0, 0, -5, 0]

/-- The car-factory exercise model over `(NA, NB)`: constraints `Robot`,
`Engineers`, `Detailer`; printed solution `[2, 6]`, printed constraint
values `[0, -14, 0]`. -/
def carsModel : PulpModel where
  constraints :=
    [⟨[3, 4], 30, .le⟩, ⟨[5, 6], 60, .le⟩, ⟨[3/2, 3], 21, .le⟩]
  sol := [2, 6]
  reported := [0, -14, 0]

/-- The `teacher-allocation` model over the 18 binaries
`x00 .. x25` (row-major): equality constraints `teacher_A`, `teacher_B`,
`teacher_C` (each teacher gives 2 hours) and `total_hours` (6 in total);
printed solution from the stored output, printed constraint values
`[0, 0, 0, 0]`. -/
def teachersModel : PulpModel where
  constraints :=
    [⟨[1, 1, 1, 1, 1, 1, 0, 0, 0, 0, 0, 0, 0, 0, 0, 0, 0, 0], 2, .eq⟩,
     ⟨[0, 0, 0, 0, 0, 0, 1, 1, 1, 1, 1, 1, 0, 0, 0, 0, 0, 0], 2, .eq⟩,
     ⟨[0, 0, 0, 0, 0, 0, 0, 0, 0, 0, 0, 0, 1, 1, 1, 1, 1, 1], 2, .eq⟩,
     ⟨[1, 1, 1, 1, 1, 1, 1, 1, 1, 1, 1, 1, 1, 1, 1, 1, 1, 1], 6, .eq⟩]
  sol := [1, 0, 0, 0, 0, 1, 1, 1, 0, 0, 0, 0, 0, 0, 1, 0, 0, 1]
  reported := [0, 0, 0, 0]

/-- The four solved pulp models of the notebook, in order of appearance. -/
def pulpModels : List PulpModel :=
  [resourceModel, nonParallelModel, carsModel, teachersModel]

/-- The slack vector of the scipy `linprog` stored output:
`slack: array([ 0., 40., 0.])`. -/
def scipySlack : List ℚ := [0, 40, 0]

/-- C10: in every solved pulp model of the notebooks, each constraint's
reported value equals its left-hand side at the returned solution minus its
right-hand side; every `<=` constraint reports a value `≤ 0` and every `==`
constraint reports `0`; and the `Raw_A` report `-40` is the negation of the
scipy slack `40` for the same row. -/
theorem pulp_constraint_values :
    (∀ m ∈ pulpModels, ∀ p ∈ m.constraints.zip m.reported,
      constraintValue p.1 m.sol = p.2 ∧
      (p.1.kind = ConstraintKind.le → p.2 ≤ 0) ∧
      (p.1.kind = ConstraintKind.eq → p.2 = 0)) ∧
    resourceModel.reported.getD 1 0 = -(scipySlack.getD 1 0) := by
  constructor
  · intro m hm
    fin_cases hm <;> intro p hp <;> fin_cases hp <;>
      refine ⟨by norm_num [constraintValue, dot, resourceModel,
        nonParallelModel, carsModel, teachersModel], ?_, ?_⟩ <;>
      simp
  · norm_num [resourceModel, scipySlack]

/-- Witness for `pulp_constraint_values`: the `Capacity` row of the
`resource-allocation` model. -/
theorem pulp_constraint_values_witness :
    constraintValue ⟨[1, 1, 1, 1], 50, .le⟩ resourceModel.sol = 0 :=
  (pulp_constraint_values.1 resourceModel (by simp [pulpModels])
    (⟨[1, 1, 1, 1], 50, .le⟩, 0) (by simp [resourceModel])).1

/-! ## Linear systems and matrices (03-SistemasLineales.ipynb)

The notebook delegates `solve`, `inv`, `norm` and `eig` to numpy/scipy.
Following the spec's interface (§4.1, §4.2, §6, §7), those operations are
modelled exactly over `ℚ`. -/

/-- Error taxonomy of the spec's interface (§7); only the singular-matrix
failure of `solve`/`inverse` is needed here. -/
inductive SolverError
  | singularMatrix
deriving DecidableEq

/-- Modelled from the spec: `inverse(A) -> Matrix | Error(SingularMatrix)`
(§4.2, §6) — the library's `linalg.inv` is a black box, so inversion is
modelled exactly over `ℚ`. With exact arithmetic, LU with partial pivoting
meets a zero pivot column precisely when `det A = 0`; then `SingularMatrix`
is reported, otherwise the exact inverse `det⁻¹ • adjugate` is returned. -/
def inverse {n : ℕ} (A : Matrix (Fin n) (Fin n) ℚ) :
    Except SolverError (Matrix (Fin n) (Fin n) ℚ) :=
  if A.det = 0 then .error .singularMatrix
  else .ok (A.det⁻¹ • A.adjugate)

/-- Modelled from the spec: `solve(A, b) -> Vector | Error(SingularMatrix)`
(§4.1, §6) — `np.linalg.solve` is a black box; modelled exactly over `ℚ`,
failing on singular input exactly as `inverse` does. -/
def solve {n : ℕ} (A : Matrix (Fin n) (Fin n) ℚ) (b : Fin n → ℚ) :
    Except SolverError (Fin n → ℚ) :=
  if A.det = 0 then .error .singularMatrix
  else .ok ((A.det⁻¹ • A.adjugate).mulVec b)

/-- When `inverse` succeeds it returns a genuine two-sided inverse. -/
lemma inverse_ok_spec {n : ℕ} {A B : Matrix (Fin n) (Fin n) ℚ}
    (h : inverse A = .ok B) : A * B = 1 ∧ B * A = 1 := by
  unfold inverse at h
  split_ifs at h with hdet
  obtain rfl : A.det⁻¹ • A.adjugate = B := by
    simpa using congrArg (fun e => e.toOption.getD 0) h
  constructor
  · rw [Matrix.mul_smul, Matrix.mul_adjugate, smul_smul,
      inv_mul_cancel₀ hdet, one_smul]
  · rw [Matrix.smul_mul, Matrix.adjugate_mul, smul_smul,
      inv_mul_cancel₀ hdet, one_smul]

/-- On nonsingular input, `solve` returns the unique solution of `Ax = b`. -/
lemma solve_ok_spec {n : ℕ} {A : Matrix (Fin n) (Fin n) ℚ}
    (hdet : A.det ≠ 0) (b x : Fin n → ℚ) :
    solve A b = .ok x ↔ A.mulVec x = b := by
  have hAB : A * (A.det⁻¹ • A.adjugate) = 1 := by
    rw [Matrix.mul_smul, Matrix.mul_adjugate, smul_smul,
      inv_mul_cancel₀ hdet, one_smul]
  have hBA : (A.det⁻¹ • A.adjugate) * A = 1 := by
    rw [Matrix.smul_mul, Matrix.adjugate_mul, smul_smul,
      inv_mul_cancel₀ hdet, one_smul]
  unfold solve
  rw [if_neg hdet]
  constructor
  · rintro h
    obtain rfl : (A.det⁻¹ • A.adjugate).mulVec b = x := by
      simpa using congrArg (fun e => e.toOption.getD 0) h
    rw [Matrix.mulVec_mulVec, hAB, Matrix.one_mulVec]
  · rintro rfl
    rw [Matrix.mulVec_mulVec, hBA, Matrix.one_mulVec]

/-- The singular matrix of the spec's test property. -/
def singularExample : Matrix (Fin 2) (Fin 2) ℚ := !![1, 1; 1, 1]

/-- C5: passing the singular matrix `[[1,1],[1,1]]` to `solve` (with any
right-hand side) or to `inverse` yields the explicit `SingularMatrix`
error result — by the disjointness of the `Except` constructors, never a
numeric result presented as a success. -/
theorem singular_matrix_rejected :
    (∀ b : Fin 2 → ℚ, solve singularExample b = .error .singularMatrix) ∧
    inverse singularExample = .error .singularMatrix := by
  have hdet : singularExample.det = 0 := by
    norm_num [singularExample, Matrix.det_fin_two]
  refine ⟨fun b => ?_, ?_⟩ <;> simp_all [solve, inverse]

/-- C7: whenever `inverse` succeeds, the returned matrix is an exact
two-sided inverse: `A * inverse(A) = I` (so in particular it is within any
tolerance of the identity, its squared Frobenius distance being zero). -/
theorem inverse_gives_identity {n : ℕ}
    (A B : Matrix (Fin n) (Fin n) ℚ) (h : inverse A = .ok B) :
    A * B = 1 ∧ B * A = 1 :=
  inverse_ok_spec h

/-- Witness for `inverse_gives_identity`: the notebook's matrix
`A = [[1, 2], [3, 4]]`, whose exact inverse is `[[-2, 1], [3/2, -1/2]]`. -/
theorem inverse_gives_identity_witness :
    !![1, 2; 3, 4] * !![-2, 1; 3/2, -1/2] = (1 : Matrix (Fin 2) (Fin 2) ℚ) :=
  (inverse_gives_identity !![1, 2; 3, 4] !![-2, 1; 3/2, -1/2]
    (by norm_num [inverse, Matrix.det_fin_two, Matrix.adjugate_fin_two])).1

/-! ## The 3×3 linear-system example

`A = [[150, -100, 0], [-100, 150, -50], [0, -50, 50]]`,
`b = [588.6, 686.7, 784.8]` from the notebook's first `np.linalg.solve`
cell. -/

/-- The coefficient matrix of the notebook's linear-system example. -/
def exampleA : Matrix (Fin 3) (Fin 3) ℚ :=
  !![150, -100, 0; -100, 150, -50; 0, -50, 50]

/-- The right-hand side `b = [588.6, 686.7, 784.8]`. -/
def exampleB : Fin 3 → ℚ := ![5886/10, 6867/10, 7848/10]

/-- The exact solution of `exampleA · x = exampleB`:
`x = [41.202, 55.917, 71.613]`. -/
def exampleSolution : Fin 3 → ℚ := ![20601/500, 55917/1000, 71613/1000]

/-- The vector `[11.772, 17.322, 32.34]` that the spec claims the solve
returns. -/
def exampleSpecVector : Fin 3 → ℚ := ![11772/1000, 17322/1000, 3234/100]

lemma exampleA_det : exampleA.det = 250000 := by
  norm_num [exampleA, Matrix.det_fin_three]

/-- Counterexample to C3: the claimed vector `[11.772, 17.322, 32.34]` is
not even approximately the solution — its residual's first component is
`-555` — and `solve` in fact returns `[41.202, 55.917, 71.613]`, whose
first component differs from the claimed one by `29.43`. -/
theorem example_spec_vector_refuted :
    solve exampleA exampleB = .ok exampleSolution ∧
    exampleA.mulVec exampleSpecVector 0 - exampleB 0 = -555 ∧
    exampleSolution 0 - exampleSpecVector 0 = 2943/100 := by
  refine ⟨?_, ?_, ?_⟩
  · rw [solve_ok_spec (by rw [exampleA_det]; norm_num)]
    funext i
    fin_cases i <;>
      norm_num [exampleA, exampleB, exampleSolution, Matrix.mulVec,
        Matrix.dotProduct, Fin.sum_univ_three]
  · norm_num [exampleA, exampleB, exampleSpecVector, Matrix.mulVec,
      Matrix.dotProduct, Fin.sum_univ_three]
  · norm_num [exampleSolution, exampleSpecVector]

/-- C3 as amended: the linear solve on the notebook's system returns
exactly `x = [41.202, 55.917, 71.613]`, the unique vector with
`A·x − b = 0`. -/
theorem example_solve_exact :
    solve exampleA exampleB = .ok exampleSolution ∧
    exampleA.mulVec exampleSolution - exampleB = 0 ∧
    ∀ x : Fin 3 → ℚ, exampleA.mulVec x = exampleB → x = exampleSolution := by
  have hdet : exampleA.det ≠ 0 := by rw [exampleA_det]; norm_num
  have hsol : exampleA.mulVec exampleSolution = exampleB := by
    funext i
    fin_cases i <;>
      norm_num [exampleA, exampleB, exampleSolution, Matrix.mulVec,
        Matrix.dotProduct, Fin.sum_univ_three]
  refine ⟨(solve_ok_spec hdet _ _).mpr hsol, by rw [hsol]; simp, ?_⟩
  intro x hx
  have h1 : solve exampleA exampleB = .ok x := (solve_ok_spec hdet _ _).mpr hx
  have h2 : solve exampleA exampleB = .ok exampleSolution :=
    (solve_ok_spec hdet _ _).mpr hsol
  have := h1.symm.trans h2
  simpa using this

/-- Witness for `example_solve_exact`: uniqueness applied to the solution
itself. -/
theorem example_solve_exact_witness : exampleSolution = exampleSolution :=
  example_solve_exact.2.2 exampleSolution
    (by
      funext i
      fin_cases i <;>
        norm_num [exampleA, exampleB, exampleSolution, Matrix.mulVec,
          Matrix.dotProduct, Fin.sum_univ_three])

/-! ## The condition number

The notebook computes `kappa = linalg.norm(A) * linalg.norm(linalg.inv(A))`;
scipy's `linalg.norm` on a matrix defaults to the Frobenius norm. To stay
in exact rational arithmetic the square of that quantity is used: since
`kappa ≥ 0`, `kappa = 1` exactly when `kappa² = 1`. -/

/-- Squared Frobenius norm: the sum of the squares of all entries. -/
def frobSq {n : ℕ} (A : Matrix (Fin n) (Fin n) ℚ) : ℚ :=
  ∑ i, ∑ j, (A i j) ^ 2

/-- The matrix the code's `linalg.inv(A)` denotes (total version of
`inverse`, as the code applies it only to nonsingular input). -/
def invMat {n : ℕ} (A : Matrix (Fin n) (Fin n) ℚ) :
    Matrix (Fin n) (Fin n) ℚ :=
  match inverse A with
  | .ok B => B
  | .error _ => 0

/-- The square of the code's
`kappa = linalg.norm(A) * linalg.norm(linalg.inv(A))` with scipy's default
Frobenius matrix norm. -/
def conditionNumberSq {n : ℕ} (A : Matrix (Fin n) (Fin n) ℚ) : ℚ :=
  frobSq A * frobSq (invMat A)

lemma invMat_one {n : ℕ} : invMat (1 : Matrix (Fin n) (Fin n) ℚ) = 1 := by
  unfold invMat inverse
  norm_num

lemma frobSq_one {n : ℕ} : frobSq (1 : Matrix (Fin n) (Fin n) ℚ) = n := by
  unfold frobSq
  simp [Matrix.one_apply, apply_ite (fun x : ℚ => x ^ 2),
    Finset.sum_ite_eq, Finset.sum_const, Finset.card_univ]

/-- Counterexample to C4: already for the 2×2 identity matrix, the code's
Frobenius-norm condition number is 2, not 1 — its square is 4, while a
value of `1 ± ε` would have square near 1. -/
theorem conditionNumber_identity_refuted :
    conditionNumberSq (1 : Matrix (Fin 2) (Fin 2) ℚ) = 4 ∧ (1 : ℚ) < 4 := by
  constructor
  · rw [conditionNumberSq, invMat_one, frobSq_one]
    norm_num
  · norm_num

/-- C4 as amended: with the code's default Frobenius norm,
`conditionNumber(I_n) = n` (its square is `n²`), so it equals 1 only for
`n = 1`; the "ideally 1" of the notebook text holds in the operator norm,
not in the norm the code computes. -/
theorem conditionNumber_identity_frobenius :
    (∀ n : ℕ, conditionNumberSq (1 : Matrix (Fin n) (Fin n) ℚ) = (n : ℚ) ^ 2) ∧
    conditionNumberSq (1 : Matrix (Fin 1) (Fin 1) ℚ) = 1 := by
  have h : ∀ n : ℕ, conditionNumberSq (1 : Matrix (Fin n) (Fin n) ℚ) = (n : ℚ) ^ 2 := by
    intro n
    rw [conditionNumberSq, invMat_one, frobSq_one]
    ring
  exact ⟨h, by rw [h 1]; norm_num⟩

/-! ## Eigenvalues and eigenvectors

The notebook calls `linalg.eig` on two 4×4 matrices and checks
`A·v − λ·v ≈ 0` for the first returned pair only. Here every returned pair
is checked, against a stated tolerance. -/

/-- The first `linalg.eig` example matrix. -/
def eigMatrixA : Matrix (Fin 4) (Fin 4) ℚ :=
  !![2, 5, 8, 7; 5, 2, 2, 8; 7, 5, 6, 6; 5, 4, 4, 8]

/-- The eigen-exercise matrix (symmetric, eigenvalues 10, 5, 2, 1). -/
def eigMatrixB : Matrix (Fin 4) (Fin 4) ℚ :=
  !![5, 4, 1, 1; 4, 5, 1, 1; 1, 1, 4, 2; 1, 1, 2, 4]

/-- The stated numerical tolerance for the eigen verification. -/
def eigenTol : ℚ := 1 / 1000000

/-- Squared residual `‖A·v − λ·v‖²` of an (eigenvalue, eigenvector) pair. -/
def residSq (A : Matrix (Fin 4) (Fin 4) ℚ) (p : ℚ × (Fin 4 → ℚ)) : ℚ :=
  ∑ i, (A.mulVec p.2 i - p.1 * p.2 i) ^ 2

/-- Squared Euclidean norm of a vector. -/
def vecNormSq (v : Fin 4 → ℚ) : ℚ := ∑ i, (v i) ^ 2

/-- Modelled from the spec: the Eigen-result (§3, §4.3) of `linalg.eig` on
`eigMatrixA` — the library's QR iteration is a black box, so the returned
pairs are modelled as rational approximations (eigenvalues to 15 decimal
places, unit eigenvector components to 12) of the true eigensystem; its
characteristic polynomial `λ⁴ − 18λ³ − 74λ² + 140λ + 194` is irreducible
over `ℚ`, so the exact values are irrational. -/
def eigenPairsA : List (ℚ × (Fin 4 → ℚ)) :=
  [(-4306006764582808 / 10 ^ 15,
    ![839500004563 / 10 ^ 12, -444339288701 / 10 ^ 12,
      -296182317512 / 10 ^ 12, -100391103434 / 10 ^ 12]),
   (-995651014779684 / 10 ^ 15,
    ![-133952850349 / 10 ^ 12, 903631283173 / 10 ^ 12,
      -373492907191 / 10 ^ 12, -161276738038 / 10 ^ 12]),
   (2138117468459822 / 10 ^ 15,
    ![-337297836933 / 10 ^ 12, 527546239240 / 10 ^ 12,
      -675800222130 / 10 ^ 12, 388869122498 / 10 ^ 12]),
   (21163540310902669 / 10 ^ 15,
    ![522140256678 / 10 ^ 12, 401386607973 / 10 ^ 12,
      568479448481 / 10 ^ 12, 493041032725 / 10 ^ 12])]

/-- Modelled from the spec: the Eigen-result of `linalg.eig` on
`eigMatrixB`. The eigenvalues 10, 5, 2, 1 and the eigenvector directions
`(2,2,1,1)`, `(1,1,-2,-2)`, `(0,0,1,-1)`, `(1,-1,0,0)` are exact; the unit
normalizations `1/√10` and `1/√2` are rational approximations to 12
decimal places. -/
def eigenPairsB : List (ℚ × (Fin 4 → ℚ)) :=
  [(10,
    ![632455532034 / 10 ^ 12, 632455532034 / 10 ^ 12,
      316227766017 / 10 ^ 12, 316227766017 / 10 ^ 12]),
   (5,
    ![316227766017 / 10 ^ 12, 316227766017 / 10 ^ 12,
      -632455532034 / 10 ^ 12, -632455532034 / 10 ^ 12]),
   (2,
    ![0, 0, 707106781187 / 10 ^ 12, -707106781187 / 10 ^ 12]),
   (1,
    ![707106781187 / 10 ^ 12, -707106781187 / 10 ^ 12, 0, 0])]

/-- C6: every (eigenvalue, eigenvector) pair of the eigen-results for both
notebook matrices — not only the first one — satisfies
`‖A·v − λ·v‖ < eigenTol` (squared residual below `eigenTol²`) and has an
eigenvector of unit norm up to `eigenTol` (`|‖v‖² − 1| < eigenTol`). -/
theorem eigen_pairs_verified :
    (∀ p ∈ eigenPairsA, residSq eigMatrixA p < eigenTol ^ 2 ∧
      |vecNormSq p.2 - 1| < eigenTol) ∧
    (∀ p ∈ eigenPairsB, residSq eigMatrixB p < eigenTol ^ 2 ∧
      |vecNormSq p.2 - 1| < eigenTol) := by
  constructor <;> intro p hp <;> fin_cases hp <;>
    constructor <;>
    norm_num [residSq, vecNormSq, eigMatrixA, eigMatrixB, eigenTol,
      Matrix.mulVec, Matrix.dotProduct, Fin.sum_univ_four, abs_lt,
      Matrix.cons_val_zero, Matrix.cons_val_one, Matrix.head_cons,
      Matrix.cons_val_two, Matrix.tail_cons, Matrix.cons_val_three,
      Matrix.head_fin_const, Matrix.cons_val', Matrix.empty_val',
      Matrix.cons_val_fin_one, Matrix.vecHead, Matrix.vecTail]

/-- Witness for `eigen_pairs_verified`: the first returned pair of the
first matrix. -/
theorem eigen_pairs_verified_witness :
    residSq eigMatrixA
        (-4306006764582808 / 10 ^ 15,
         ![839500004563 / 10 ^ 12, -444339288701 / 10 ^ 12,
           -296182317512 / 10 ^ 12, -100391103434 / 10 ^ 12]) <
      eigenTol ^ 2 :=
  (eigen_pairs_verified.1 _ (List.mem_cons_self _ _)).1

end PyEng
